import Mathlib

/-!
Verification of the license-ledger engine in src/server-deploy.js.

The backing tabular store is modelled as a list of rows; row 0 is the
header row and every cell is a string. JavaScript "undefined" cells
(reads past the end of a row, or negative indices) are modelled with
Option. Column indices keep the JavaScript convention: an Int that is
-1 when the column was not found.
-/

namespace SrvDeploy

instance instDecEqExcept {ε α : Type} [DecidableEq ε] [DecidableEq α] :
    DecidableEq (Except ε α) := fun x y =>
  match x, y with
  | .ok a, .ok b =>
      if h : a = b then .isTrue (by rw [h]) else .isFalse (fun c => h (Except.ok.inj c))
  | .error a, .error b =>
      if h : a = b then .isTrue (by rw [h]) else .isFalse (fun c => h (Except.error.inj c))
  | .ok _, .error _ => .isFalse (fun c => Except.noConfusion c)
  | .error _, .ok _ => .isFalse (fun c => Except.noConfusion c)

/-- Cell access: row[i] in JavaScript. A negative index or an index past
the end of the row yields undefined, modelled as none. -/
def cellAt (row : List String) (i : Int) : Option String :=
  if i < 0 then none else row.get? i.toNat

/-- Bool test: does the character list a lead (start) the character list b. -/
def leadsList : List Char → List Char → Bool
  | [], _ => true
  | _ :: _, [] => false
  | a :: as, b :: bs => a == b && leadsList as bs

/-- Helper for substring search: does the needle occur at any position. -/
def containsAux (needle : List Char) : List Char → Bool
  | [] => leadsList needle []
  | c :: t => leadsList needle (c :: t) || containsAux needle t

/-- JavaScript s.includes(sub). -/
def strContains (s sub : String) : Bool :=
  containsAux sub.data s.data

/-- JavaScript s.toLowerCase(), character by character. -/
def jsToLower (s : String) : String :=
  ⟨s.data.map Char.toLower⟩

/-- The predicate used with findIndex on the header row:
header && header.toLowerCase().includes(sub). An empty header cell is
falsy and therefore skipped. -/
def headerHas (h : String) (sub : String) : Bool :=
  if h = "" then false else strContains (jsToLower h) sub

/-- JavaScript Array.findIndex loop, carrying the current index. -/
def jsFindIndexAux (p : String → Bool) : List String → Nat → Int
  | [], _ => -1
  | h :: t, i => if p h then (i : Int) else jsFindIndexAux p t (i + 1)

/-- JavaScript headers.findIndex(p): index of the first entry satisfying
p, and -1 when none does. -/
def jsFindIndex (p : String → Bool) (l : List String) : Int :=
  jsFindIndexAux p l 0

/-- Numeric value of a list of decimal digit characters. -/
def digitsVal (l : List Char) : Nat :=
  l.foldl (fun n c => n * 10 + (c.toNat - 48)) 0

/-- JavaScript parseInt on a string (decimal): skip leading whitespace,
optional sign, then the longest digit run; none models NaN. -/
def jsParseInt (s : String) : Option Int :=
  match s.data.dropWhile (fun c => c == ' ' || c == '\t' || c == '\n' || c == '\r') with
  | '-' :: rest =>
      let ds := rest.takeWhile Char.isDigit
      if ds.isEmpty then none else some (-(digitsVal ds : Int))
  | '+' :: rest =>
      let ds := rest.takeWhile Char.isDigit
      if ds.isEmpty then none else some (digitsVal ds)
  | cs =>
      let ds := cs.takeWhile Char.isDigit
      if ds.isEmpty then none else some (digitsVal ds)

/-- parseInt(cell) || 0: NaN (and an undefined cell) falls back to 0;
a parsed 0 is falsy and also yields 0, which coincides. -/
def parseTokensCell (c : Option String) : Int :=
  match c with
  | none => 0
  | some s => (jsParseInt s).getD 0

/-- JavaScript s.replace(chr 35, empty): removes the FIRST occurrence of
the hash character, wherever it is in the string. -/
def removeFirstHash : List Char → List Char
  | [] => []
  | c :: t => if c == '#' then t else c :: removeFirstHash t

/-- String form of removeFirstHash. -/
def jsReplaceHash (s : String) : String :=
  ⟨removeFirstHash s.data⟩

/-- Result of findOrderInSheet: the object returned for a located order row. -/
structure OrderInfo where
  orderNumber : Option String
  tokens : Int
  rowIndex : Nat
  orderColumnIndex : Int
  tokensColumnIndex : Int
  activatedColumnIndex : Int
  terminatedColumnIndex : Int
  isActivated : Bool
  isTerminated : Bool
deriving DecidableEq

/-- Result of findOrderRowBySerial: the object returned for a located serial row. -/
structure SerialInfo where
  rowIndex : Nat
  serialColumnIndex : Int
  tokenColumnIndex : Int
  activatedColumnIndex : Int
  terminatedColumnIndex : Int
  currentTokens : Int
  isValid : Bool
  isActivated : Bool
  isTerminated : Bool
deriving DecidableEq

/-- The object built by findOrderInSheet when row jsIdx (JavaScript loop
index, first data row has jsIdx = 1) matches; rowIndex is jsIdx + 1. -/
def mkOrderInfo (oc tc ac tmc : Int) (row : List String) (jsIdx : Nat) : OrderInfo :=
  { orderNumber := cellAt row oc
    tokens := if tc = -1 then 1000 else parseTokensCell (cellAt row tc)
    rowIndex := jsIdx + 1
    orderColumnIndex := oc
    tokensColumnIndex := tc
    activatedColumnIndex := ac
    terminatedColumnIndex := tmc
    isActivated := if ac = -1 then false else decide (cellAt row ac = some "TRUE")
    isTerminated := if tmc = -1 then false else decide (cellAt row tmc = some "TRUE") }

/-- The object built by findOrderRowBySerial for a matching row. -/
def mkSerialInfo (sc tc ac tmc : Int) (row : List String) (jsIdx : Nat) : SerialInfo :=
  { rowIndex := jsIdx + 1
    serialColumnIndex := sc
    tokenColumnIndex := tc
    activatedColumnIndex := ac
    terminatedColumnIndex := tmc
    currentTokens := parseTokensCell (cellAt row tc)
    isValid := decide (0 < parseTokensCell (cellAt row tc))
    isActivated := if ac = -1 then false else decide (cellAt row ac = some "TRUE")
    isTerminated := if tmc = -1 then false else decide (cellAt row tmc = some "TRUE") }

/-- The for-loop shared by both locator functions: scan the data rows in
order from JavaScript index i, return the first row satisfying p, built
with mk. -/
def scanRows (p : List String → Bool) (mk : List String → Nat → α) :
    List (List String) → Nat → Option α
  | [], _ => none
  | row :: rest, i => if p row then some (mk row i) else scanRows p mk rest (i + 1)

/-- The row predicate of the order search: both the query and the cell
are cleaned with replace(hash, empty) before comparison. An undefined
cell is coerced to the empty string first. -/
def orderRowMatches (oc : Int) (orderNumber : String) (row : List String) : Bool :=
  decide (jsReplaceHash ((cellAt row oc).getD "") = jsReplaceHash orderNumber)

/-- findOrderInSheet from src/server-deploy.js: resolve the four columns
from the header row, fail hard when the order column is missing, then
return the first data row whose cleaned order cell equals the cleaned
query. Returns ok none when the sheet is empty or no row matches. -/
def findOrderInSheet (rows : List (List String)) (orderNumber : String) :
    Except String (Option OrderInfo) :=
  match rows with
  | [] => .ok none
  | headers :: dataRows =>
      let oc := jsFindIndex (fun h => headerHas h "clientorder") headers
      let tc := jsFindIndex (fun h => headerHas h "token") headers
      let ac := jsFindIndex (fun h => headerHas h "activated") headers
      let tmc := jsFindIndex (fun h => headerHas h "terminated") headers
      if oc = -1 then .error "Could not find Order column in spreadsheet"
      else .ok (scanRows (orderRowMatches oc orderNumber) (mkOrderInfo oc tc ac tmc) dataRows 1)

/-- The row predicate of the serial search: raw string equality, no
normalization; an undefined cell never equals a string. -/
def serialRowMatches (sc : Int) (serialNumber : String) (row : List String) : Bool :=
  decide (cellAt row sc = some serialNumber)

/-- findOrderRowBySerial from src/server-deploy.js: resolve columns, fail
hard when the serial OR the token column is missing, then return the
first data row whose serial cell equals the query exactly. -/
def findOrderRowBySerial (rows : List (List String)) (serialNumber : String) :
    Except String (Option SerialInfo) :=
  match rows with
  | [] => .ok none
  | headers :: dataRows =>
      let sc := jsFindIndex (fun h => headerHas h "serial") headers
      let tc := jsFindIndex (fun h => headerHas h "token") headers
      let ac := jsFindIndex (fun h => headerHas h "activated") headers
      let tmc := jsFindIndex (fun h => headerHas h "terminated") headers
      if sc = -1 ∨ tc = -1 then .error "Could not find Serial or Token columns in spreadsheet"
      else .ok (scanRows (serialRowMatches sc serialNumber) (mkSerialInfo sc tc ac tmc) dataRows 1)

/-- One store write as issued by sheets.spreadsheets.values.update:
a 1-based row, a column index and the written value. -/
structure WriteEv where
  rowIndex : Nat
  colIndex : Int
  value : String
deriving DecidableEq

/-- Overwrite entry c of a row, padding with empty cells when the row is
shorter (the store materializes the addressed cell). -/
def setNth : List String → Nat → String → List String
  | _ :: t, 0, v => v :: t
  | [], 0, v => [v]
  | [], c + 1, v => "" :: setNth [] c v
  | x :: t, c + 1, v => x :: setNth t c v

/-- Replace row n (0-based) of the sheet by f applied to it. -/
def updateNthRow : List (List String) → Nat → (List String → List String) → List (List String)
  | [], _, _ => []
  | r :: t, 0, f => f r :: t
  | r :: t, n + 1, f => r :: updateNthRow t n f

/-- Apply a single-cell write to the sheet; rowIndex is 1-based as in the
A1-style range the code builds. -/
def writeCell (rows : List (List String)) (rowIndex : Nat) (colIndex : Int) (v : String) :
    List (List String) :=
  updateNthRow rows (rowIndex - 1) (fun row => setNth row colIndex.toNat v)

/-- Engine state threaded through an operation: the sheet contents, the
outcomes of the upcoming store writes (head = next write; true means the
round trip succeeds, false means the API call throws; an exhausted list
means every further write succeeds), and the trace of committed writes. -/
structure EngSt where
  rows : List (List String)
  plan : List Bool
  trace : List WriteEv
deriving DecidableEq

/-- One store write. A negative column index would address the invalid
column letter before A and make the API reject the range, hence the
error; a planned failure throws before anything is persisted. -/
def doWrite (st : EngSt) (rowIndex : Nat) (colIndex : Int) (v : String) :
    Except (String × EngSt) EngSt :=
  if colIndex < 0 then .error ("Invalid range", st)
  else
    match st.plan with
    | [] => .ok { rows := writeCell st.rows rowIndex colIndex v, plan := [],
                  trace := st.trace ++ [⟨rowIndex, colIndex, v⟩] }
    | b :: rest =>
        if b then
          .ok { rows := writeCell st.rows rowIndex colIndex v, plan := rest,
                trace := st.trace ++ [⟨rowIndex, colIndex, v⟩] }
        else .error ("Write failed", { st with plan := rest })

/-- updateTokensInSheet: write the numeric token value to one cell. -/
def updateTokensInSheet (st : EngSt) (rowIndex : Nat) (columnIndex : Int)
    (newTokenValue : Int) : Except (String × EngSt) EngSt :=
  doWrite st rowIndex columnIndex (toString newTokenValue)

/-- updateActivatedStatus: guarded write of TRUE; a missing column makes
it return false without touching the store. -/
def updateActivatedStatus (st : EngSt) (rowIndex : Nat) (columnIndex : Int) :
    Except (String × EngSt) (EngSt × Bool) :=
  if columnIndex = -1 then .ok (st, false)
  else (doWrite st rowIndex columnIndex "TRUE").map (fun st2 => (st2, true))

/-- updateTerminatedStatus: same shape as updateActivatedStatus. -/
def updateTerminatedStatus (st : EngSt) (rowIndex : Nat) (columnIndex : Int) :
    Except (String × EngSt) (EngSt × Bool) :=
  if columnIndex = -1 then .ok (st, false)
  else (doWrite st rowIndex columnIndex "TRUE").map (fun st2 => (st2, true))

/-- The fallback loop of setUserTokens: scan every row again for the
serial and write the token amount there; previousTokens is re-parsed
from the row. Reached only when findOrderRowBySerial saw no match. -/
def setUserTokensFallback (sc tc : Int) (serialNumber : String) (tokenAmount : Int)
    (st : EngSt) : List (List String) → Nat → Except (String × EngSt) (EngSt × Int × Int)
  | [], _ => .error ("Serial number " ++ serialNumber ++ " not found in spreadsheet", st)
  | row :: rest, i =>
      if cellAt row sc = some serialNumber then
        (updateTokensInSheet st (i + 1) tc tokenAmount).map
          (fun st2 => (st2, tokenAmount, parseTokensCell (cellAt row tc)))
      else setUserTokensFallback sc tc serialNumber tokenAmount st rest (i + 1)

/-- setUserTokens from src/server-deploy.js: locate the order row by
serial and overwrite its token cell with exactly tokenAmount, returning
the new and the previous balance; when the locator reports no match the
fallback rescans the sheet, and a still-missing serial is an error. -/
def setUserTokens (st : EngSt) (serialNumber : String) (tokenAmount : Int) :
    Except (String × EngSt) (EngSt × Int × Int) :=
  match findOrderRowBySerial st.rows serialNumber with
  | .error msg => .error (msg, st)
  | .ok (some info) =>
      (updateTokensInSheet st info.rowIndex info.tokenColumnIndex tokenAmount).map
        (fun st2 => (st2, tokenAmount, info.currentTokens))
  | .ok none =>
      match st.rows with
      | [] => .error ("TypeError: cannot read properties of undefined", st)
      | headers :: dataRows =>
          setUserTokensFallback
            (jsFindIndex (fun h => headerHas h "serial") headers)
            (jsFindIndex (fun h => headerHas h "token") headers)
            serialNumber tokenAmount st dataRows 1

/-- Outcome of POST /api/claim-tokens, one constructor per distinct
response the handler can produce. -/
inductive ClaimResult where
  | badRequest (msg : String)
  | serviceUnavailable
  | orderNotFound
  | alreadyActivated
  | alreadyTerminated
  | success (tokensSet newTokenBalance : Int) (wasActivated : Bool)
  | googleError (msg : String)
deriving DecidableEq

/-- POST /api/claim-tokens: validate the body, require the store client,
locate the order, reject an activated and then a terminated record, set
the serial row's balance to exactly 500000 via setUserTokens, then flip
the Activated flag of the order row when that column exists, and answer
success with the constants 500000 / 500000 / true. Any thrown store
error is caught and reported as a generic claiming failure. -/
def claimEndpoint (sheetsAvailable : Bool) (rows : List (List String))
    (orderNumber serialNumber deviceId : String) (plan : List Bool) :
    ClaimResult × List (List String) × List WriteEv :=
  if orderNumber = "" ∨ serialNumber = "" ∨ deviceId = "" then
    (.badRequest "Order number, serial number, and device ID are required", rows, [])
  else if !sheetsAvailable then
    (.serviceUnavailable, rows, [])
  else
    match findOrderInSheet rows orderNumber with
    | .error msg => (.googleError msg, rows, [])
    | .ok none => (.orderNotFound, rows, [])
    | .ok (some orderInfo) =>
        if orderInfo.isActivated then (.alreadyActivated, rows, [])
        else if orderInfo.isTerminated then (.alreadyTerminated, rows, [])
        else
          match setUserTokens ⟨rows, plan, []⟩ serialNumber 500000 with
          | .error (msg, st) => (.googleError msg, st.rows, st.trace)
          | .ok (st, _newTokens, _previousTokens) =>
              if orderInfo.activatedColumnIndex ≠ -1 then
                match updateActivatedStatus st orderInfo.rowIndex orderInfo.activatedColumnIndex with
                | .error (msg, st2) => (.googleError msg, st2.rows, st2.trace)
                | .ok (st2, _) => (.success 500000 500000 true, st2.rows, st2.trace)
              else
                (.success 500000 500000 true, st.rows, st.trace)

/-- Outcome of POST /api/consume-tokens. -/
inductive ConsumeResult where
  | badRequest (msg : String)
  | mockSuccess (newTokens consumed : Int)
  | serialNotFound
  | insufficient (currentTokens requested : Int)
  | success (newTokens consumed previousTokens : Int) (wasTerminated : Bool)
  | googleError (msg : String)
deriving DecidableEq

/-- POST /api/consume-tokens: validate the body; without the store client
answer a mock success with max(0, 1000 - amount). Otherwise locate the
serial row, reject an insufficient balance without writing, write the
deducted balance, and only when the written balance is below zero (and
the Terminated column exists and the record is not already terminated)
write Terminated = TRUE and report wasTerminated = true. -/
def consumeEndpoint (sheetsAvailable : Bool) (rows : List (List String))
    (serialNumber deviceId : String) (amount : Int) (plan : List Bool) :
    ConsumeResult × List (List String) × List WriteEv :=
  if serialNumber = "" ∨ deviceId = "" then
    (.badRequest "Serial number, device ID, and tokens_to_consume (number) are required", rows, [])
  else if amount ≤ 0 then
    (.badRequest "tokens_to_consume must be positive", rows, [])
  else if !sheetsAvailable then
    (.mockSuccess (max 0 (1000 - amount)) amount, rows, [])
  else
    match findOrderRowBySerial rows serialNumber with
    | .error msg => (.googleError msg, rows, [])
    | .ok none => (.serialNotFound, rows, [])
    | .ok (some orderRowInfo) =>
        if orderRowInfo.currentTokens < amount then
          (.insufficient orderRowInfo.currentTokens amount, rows, [])
        else
          let newTokenValue := orderRowInfo.currentTokens - amount
          match updateTokensInSheet ⟨rows, plan, []⟩ orderRowInfo.rowIndex
              orderRowInfo.tokenColumnIndex newTokenValue with
          | .error (msg, st) => (.googleError msg, st.rows, st.trace)
          | .ok st =>
              if newTokenValue < 0 then
                if orderRowInfo.terminatedColumnIndex ≠ -1 then
                  if !orderRowInfo.isTerminated then
                    match updateTerminatedStatus st orderRowInfo.rowIndex
                        orderRowInfo.terminatedColumnIndex with
                    | .error (msg, st2) => (.googleError msg, st2.rows, st2.trace)
                    | .ok (st2, _) =>
                        (.success newTokenValue amount orderRowInfo.currentTokens true,
                         st2.rows, st2.trace)
                  else
                    (.success newTokenValue amount orderRowInfo.currentTokens false,
                     st.rows, st.trace)
                else
                  (.success newTokenValue amount orderRowInfo.currentTokens false,
                   st.rows, st.trace)
              else
                (.success newTokenValue amount orderRowInfo.currentTokens false,
                 st.rows, st.trace)

/-- Outcome of POST /api/validate. The payload of notFound and ok records
the valid flag and tokens_remaining fields of the JSON response. -/
inductive ValidateResult where
  | badRequest (msg : String)
  | mock (valid : Bool) (tokensRemaining : Int)
  | notFound (valid : Bool) (tokensRemaining : Int)
  | ok (valid : Bool) (tokensRemaining : Int) (isTerminated : Bool) (rowIndex : Nat)
  | googleError (msg : String)
deriving DecidableEq

/-- POST /api/validate: without the store client answer the mock result
(valid iff the serial is longer than 5 characters, with 1000 tokens).
Otherwise a missing serial is the soft outcome valid = false with zero
tokens, and a located record is valid iff it is not terminated and its
balance is positive; no write happens. -/
def validateEndpoint (sheetsAvailable : Bool) (rows : List (List String))
    (serialNumber deviceId : String) : ValidateResult :=
  if serialNumber = "" ∨ deviceId = "" then
    .badRequest "Serial number and device ID are required"
  else if !sheetsAvailable then
    .mock (decide (5 < serialNumber.length)) (if 5 < serialNumber.length then 1000 else 0)
  else
    match findOrderRowBySerial rows serialNumber with
    | .error msg => .googleError msg
    | .ok none => .notFound false 0
    | .ok (some orderRowInfo) =>
        .ok (!orderRowInfo.isTerminated && decide ((0 : Int) < orderRowInfo.currentTokens))
          orderRowInfo.currentTokens orderRowInfo.isTerminated orderRowInfo.rowIndex

/-! Spec-side comparison definitions (named after the specification's
words, for refinement claims about lookup and column resolution). -/

/-- Modelled on the spec wording: first row of the list satisfying p,
together with its 0-based position; none when no row matches. -/
def firstMatch? (p : List String → Bool) : List (List String) → Option (Nat × List String)
  | [] => none
  | r :: t => if p r then some (0, r) else (firstMatch? p t).map (fun x => (x.1 + 1, x.2))

/-- Modelled on the spec wording: index of the first header entry
satisfying p. -/
def firstIdx? (p : String → Bool) : List String → Option Nat
  | [] => none
  | h :: t => if p h then some 0 else (firstIdx? p t).map (· + 1)

/-- Modelled on the spec wording: strip ONLY a leading hash character
(the spec's normalization for order identifiers). -/
def stripLeadingHash (s : String) : String :=
  match s.data with
  | '#' :: rest => ⟨rest⟩
  | _ => s

/-! Concrete fixtures used by the claim theorems and witnesses. -/

/-- The header row used by the scenario sheets. -/
def hdr5 : List String := ["Serial", "ClientOrder", "Token", "Activated", "Terminated"]

/-- Activated record holding the full grant of 500000 tokens. -/
def sheetFull : List (List String) := [hdr5, ["S1", "#100", "500000", "TRUE", "FALSE"]]

/-- Record that is both activated and terminated. -/
def sheetBothFlags : List (List String) := [hdr5, ["S1", "#100", "500000", "TRUE", "TRUE"]]

/-- Unclaimed record with zero balance. -/
def sheetFresh : List (List String) := [hdr5, ["S1", "#100", "0", "FALSE", "FALSE"]]

/-- Unclaimed record with a prior balance of 777. -/
def sheetFresh777 : List (List String) := [hdr5, ["S1", "#100", "777", "FALSE", "FALSE"]]

/-- The record findOrderInSheet locates in sheetBothFlags. -/
def infoBothFlags : OrderInfo :=
  { orderNumber := some "#100", tokens := 500000, rowIndex := 2,
    orderColumnIndex := 1, tokensColumnIndex := 2, activatedColumnIndex := 3,
    terminatedColumnIndex := 4, isActivated := true, isTerminated := true }

/-- The record findOrderInSheet locates in sheetFresh. -/
def infoFresh : OrderInfo :=
  { orderNumber := some "#100", tokens := 0, rowIndex := 2,
    orderColumnIndex := 1, tokensColumnIndex := 2, activatedColumnIndex := 3,
    terminatedColumnIndex := 4, isActivated := false, isTerminated := false }

/-- The record findOrderRowBySerial locates in sheetFresh. -/
def sinfoFresh : SerialInfo :=
  { rowIndex := 2, serialColumnIndex := 0, tokenColumnIndex := 2,
    activatedColumnIndex := 3, terminatedColumnIndex := 4,
    currentTokens := 0, isValid := false, isActivated := false, isTerminated := false }

/-- The record findOrderRowBySerial locates in sheetFull. -/
def sinfoFull : SerialInfo :=
  { rowIndex := 2, serialColumnIndex := 0, tokenColumnIndex := 2,
    activatedColumnIndex := 3, terminatedColumnIndex := 4,
    currentTokens := 500000, isValid := true, isActivated := true, isTerminated := false }

/-- The record findOrderRowBySerial locates in sheetBothFlags. -/
def sinfoBothFlags : SerialInfo :=
  { rowIndex := 2, serialColumnIndex := 0, tokenColumnIndex := 2,
    activatedColumnIndex := 3, terminatedColumnIndex := 4,
    currentTokens := 500000, isValid := true, isActivated := true, isTerminated := true }

/-- Sheet whose order cell carries a hash in the middle. -/
def sheetHashMid : List (List String) := [["ClientOrder", "Serial"], ["1#00", "SX"]]

/-- The record the code locates in sheetHashMid for the query with a
leading hash. -/
def infoHashMid : OrderInfo :=
  { orderNumber := some "1#00", tokens := 1000, rowIndex := 2,
    orderColumnIndex := 0, tokensColumnIndex := -1,
    activatedColumnIndex := -1, terminatedColumnIndex := -1,
    isActivated := false, isTerminated := false }

/-! Characterization lemmas for the search loops. -/

theorem scanRows_eq_firstMatch {α : Type} (p : List String → Bool) (mk : List String → Nat → α) :
    ∀ (l : List (List String)) (i : Nat),
    scanRows p mk l i = (firstMatch? p l).map (fun x => mk x.2 (i + x.1)) := by
  intro l
  induction l with
  | nil => intro i; rfl
  | cons r t ih =>
      intro i
      by_cases h : p r = true
      · simp [scanRows, firstMatch?, h]
      · cases hfm : firstMatch? p t with
        | none => simp [scanRows, firstMatch?, h, ih, hfm]
        | some x =>
            have hidx : i + 1 + x.1 = i + (x.1 + 1) := by omega
            simp [scanRows, firstMatch?, h, ih, hfm, hidx]

theorem jsFindIndexAux_eq_firstIdx (p : String → Bool) :
    ∀ (l : List String) (i : Nat),
    jsFindIndexAux p l i = (firstIdx? p l).elim (-1) (fun j => ((i + j : Nat) : Int)) := by
  intro l
  induction l with
  | nil => intro i; rfl
  | cons h t ih =>
      intro i
      by_cases hp : p h = true
      · simp [jsFindIndexAux, firstIdx?, hp]
      · cases hfi : firstIdx? p t with
        | none => simp [jsFindIndexAux, firstIdx?, hp, ih, hfi]
        | some j =>
            simp [jsFindIndexAux, firstIdx?, hp, ih, hfi]
            omega

theorem jsFindIndex_eq_firstIdx (p : String → Bool) (l : List String) :
    jsFindIndex p l = (firstIdx? p l).elim (-1) (fun j => (j : Int)) := by
  rw [jsFindIndex, jsFindIndexAux_eq_firstIdx]
  cases firstIdx? p l <;> simp

theorem jsFindIndex_cases (p : String → Bool) (l : List String) :
    jsFindIndex p l = -1 ∨ 0 ≤ jsFindIndex p l := by
  rw [jsFindIndex_eq_firstIdx]
  cases firstIdx? p l with
  | none => left; rfl
  | some j => right; simp

theorem findOrderInSheet_eq (headers : List String) (dataRows : List (List String))
    (q : String)
    (hoc : jsFindIndex (fun s => headerHas s "clientorder") headers ≠ -1) :
    findOrderInSheet (headers :: dataRows) q =
      .ok ((firstMatch? (orderRowMatches (jsFindIndex (fun s => headerHas s "clientorder") headers) q) dataRows).map
        (fun x => mkOrderInfo (jsFindIndex (fun s => headerHas s "clientorder") headers)
          (jsFindIndex (fun s => headerHas s "token") headers)
          (jsFindIndex (fun s => headerHas s "activated") headers)
          (jsFindIndex (fun s => headerHas s "terminated") headers) x.2 (1 + x.1))) := by
  unfold findOrderInSheet
  simp [hoc, scanRows_eq_firstMatch]

theorem findOrderRowBySerial_eq (headers : List String) (dataRows : List (List String))
    (s : String)
    (hsc : jsFindIndex (fun c => headerHas c "serial") headers ≠ -1)
    (htc : jsFindIndex (fun c => headerHas c "token") headers ≠ -1) :
    findOrderRowBySerial (headers :: dataRows) s =
      .ok ((firstMatch? (serialRowMatches (jsFindIndex (fun c => headerHas c "serial") headers) s) dataRows).map
        (fun x => mkSerialInfo (jsFindIndex (fun c => headerHas c "serial") headers)
          (jsFindIndex (fun c => headerHas c "token") headers)
          (jsFindIndex (fun c => headerHas c "activated") headers)
          (jsFindIndex (fun c => headerHas c "terminated") headers) x.2 (1 + x.1))) := by
  unfold findOrderRowBySerial
  simp [hsc, htc, scanRows_eq_firstMatch]

theorem findOrderInSheet_some_shape {rows : List (List String)} {q : String}
    {info : OrderInfo} (h : findOrderInSheet rows q = .ok (some info)) :
    ∃ headers dataRows x,
      rows = headers :: dataRows ∧
      jsFindIndex (fun s => headerHas s "clientorder") headers ≠ -1 ∧
      firstMatch? (orderRowMatches (jsFindIndex (fun s => headerHas s "clientorder") headers) q) dataRows = some x ∧
      info = mkOrderInfo (jsFindIndex (fun s => headerHas s "clientorder") headers)
        (jsFindIndex (fun s => headerHas s "token") headers)
        (jsFindIndex (fun s => headerHas s "activated") headers)
        (jsFindIndex (fun s => headerHas s "terminated") headers) x.2 (1 + x.1) := by
  match rows with
  | [] => simp [findOrderInSheet] at h
  | headers :: dataRows =>
      by_cases hoc : jsFindIndex (fun s => headerHas s "clientorder") headers = -1
      · simp [findOrderInSheet, hoc] at h
      · rw [findOrderInSheet_eq headers dataRows q hoc] at h
        simp only [Except.ok.injEq] at h
        obtain ⟨x, hx, hmk⟩ := Option.map_eq_some'.mp h
        exact ⟨headers, dataRows, x, rfl, hoc, hx, hmk.symm⟩

theorem findOrderRowBySerial_some_shape {rows : List (List String)} {s : String}
    {sinfo : SerialInfo} (h : findOrderRowBySerial rows s = .ok (some sinfo)) :
    ∃ headers dataRows x,
      rows = headers :: dataRows ∧
      jsFindIndex (fun c => headerHas c "serial") headers ≠ -1 ∧
      jsFindIndex (fun c => headerHas c "token") headers ≠ -1 ∧
      firstMatch? (serialRowMatches (jsFindIndex (fun c => headerHas c "serial") headers) s) dataRows = some x ∧
      sinfo = mkSerialInfo (jsFindIndex (fun c => headerHas c "serial") headers)
        (jsFindIndex (fun c => headerHas c "token") headers)
        (jsFindIndex (fun c => headerHas c "activated") headers)
        (jsFindIndex (fun c => headerHas c "terminated") headers) x.2 (1 + x.1) := by
  match rows with
  | [] => simp [findOrderRowBySerial] at h
  | headers :: dataRows =>
      by_cases hsc : jsFindIndex (fun c => headerHas c "serial") headers = -1
      · simp [findOrderRowBySerial, hsc] at h
      · by_cases htc : jsFindIndex (fun c => headerHas c "token") headers = -1
        · simp [findOrderRowBySerial, hsc, htc] at h
        · rw [findOrderRowBySerial_eq headers dataRows s hsc htc] at h
          simp only [Except.ok.injEq] at h
          obtain ⟨x, hx, hmk⟩ := Option.map_eq_some'.mp h
          exact ⟨headers, dataRows, x, rfl, hsc, htc, hx, hmk.symm⟩

theorem orderInfo_ac_cases {rows : List (List String)} {q : String} {info : OrderInfo}
    (h : findOrderInSheet rows q = .ok (some info)) :
    info.activatedColumnIndex = -1 ∨ 0 ≤ info.activatedColumnIndex := by
  obtain ⟨headers, dataRows, x, -, -, -, hmk⟩ := findOrderInSheet_some_shape h
  subst hmk
  exact jsFindIndex_cases _ headers

theorem serialInfo_tokCol_nonneg {rows : List (List String)} {s : String}
    {sinfo : SerialInfo} (h : findOrderRowBySerial rows s = .ok (some sinfo)) :
    0 ≤ sinfo.tokenColumnIndex := by
  obtain ⟨headers, dataRows, x, -, -, htc, -, hmk⟩ := findOrderRowBySerial_some_shape h
  subst hmk
  rcases jsFindIndex_cases (fun c => headerHas c "token") headers with hc | hc
  · exact absurd hc htc
  · exact hc

theorem setUserTokens_found {rows : List (List String)} {serial : String}
    {sinfo : SerialInfo} (amt : Int) (plan : List Bool)
    (h : findOrderRowBySerial rows serial = .ok (some sinfo)) :
    setUserTokens ⟨rows, plan, []⟩ serial amt =
      (updateTokensInSheet ⟨rows, plan, []⟩ sinfo.rowIndex sinfo.tokenColumnIndex amt).map
        (fun st2 => (st2, amt, sinfo.currentTokens)) := by
  unfold setUserTokens
  rw [h]

theorem doWrite_plan_nil {rows : List (List String)} {trace : List WriteEv}
    (rowIndex : Nat) {colIndex : Int} (v : String) (hc : 0 ≤ colIndex) :
    doWrite ⟨rows, [], trace⟩ rowIndex colIndex v =
      .ok ⟨writeCell rows rowIndex colIndex v, [], trace ++ [⟨rowIndex, colIndex, v⟩]⟩ := by
  unfold doWrite
  rw [if_neg (by omega)]

theorem doWrite_plan_true {rows : List (List String)} {trace : List WriteEv}
    (rowIndex : Nat) {colIndex : Int} (v : String) (rest : List Bool) (hc : 0 ≤ colIndex) :
    doWrite ⟨rows, true :: rest, trace⟩ rowIndex colIndex v =
      .ok ⟨writeCell rows rowIndex colIndex v, rest, trace ++ [⟨rowIndex, colIndex, v⟩]⟩ := by
  unfold doWrite
  rw [if_neg (by omega)]
  rfl

theorem doWrite_plan_false {rows : List (List String)} {trace : List WriteEv}
    (rowIndex : Nat) {colIndex : Int} (v : String) (rest : List Bool) (hc : 0 ≤ colIndex) :
    doWrite ⟨rows, false :: rest, trace⟩ rowIndex colIndex v =
      .error ("Write failed", ⟨rows, rest, trace⟩) := by
  unfold doWrite
  rw [if_neg (by omega)]
  rfl

/-- Claim C1. The spec states that consuming down to newBalance = 0 must
persist terminated = true and report wasTerminated = true. Evaluating
the consume handler at the failing input (balance 500000, consume
500000, Terminated column present and FALSE): the handler writes the
balance 0 but leaves the Terminated cell at FALSE and reports
wasTerminated = false, because its termination test is newBalance
strictly below zero, which the earlier sufficiency check makes
unreachable. This contradicts the startup banner of the code itself,
which advertises termination tracking at tokens = 0. -/
theorem C1_consume_exact_exhaustion_not_terminated :
    consumeEndpoint true sheetFull "S1" "dev" 500000 [] =
      (.success 0 500000 500000 false,
       [hdr5, ["S1", "#100", "0", "TRUE", "FALSE"]],
       [⟨2, 2, "0"⟩]) := by decide

/-- Claim C2, counterexample. A record that is both activated and
terminated is rejected as AlreadyActivated, not AlreadyTerminated: the
handler tests the activated flag first, so the claim that terminated
records always fail with AlreadyTerminated regardless of the activated
state is false. -/
theorem C2_counterexample :
    (claimEndpoint true sheetBothFlags "100" "S1" "dev" []).1 = .alreadyActivated ∧
    findOrderInSheet sheetBothFlags "100" = .ok (some infoBothFlags) ∧
    infoBothFlags.isTerminated = true ∧
    ClaimResult.alreadyActivated ≠ ClaimResult.alreadyTerminated := by
  refine ⟨by decide, by decide, by decide, by decide⟩

/-- Claim C2, amended: the claim endpoint checks the activated flag
FIRST: any located record with activated = true fails with
AlreadyActivated (even when it is also terminated), and
AlreadyTerminated is returned exactly for records with activated = false
and terminated = true. -/
theorem C2_amended_activation_checked_first (rows : List (List String))
    (orderNumber serialNumber deviceId : String) (plan : List Bool) (info : OrderInfo)
    (ho : orderNumber ≠ "") (hs : serialNumber ≠ "") (hd : deviceId ≠ "")
    (hfind : findOrderInSheet rows orderNumber = .ok (some info)) :
    (info.isActivated = true →
      (claimEndpoint true rows orderNumber serialNumber deviceId plan).1 = .alreadyActivated) ∧
    (info.isActivated = false → info.isTerminated = true →
      (claimEndpoint true rows orderNumber serialNumber deviceId plan).1 = .alreadyTerminated) := by
  have hguard : ¬(orderNumber = "" ∨ serialNumber = "" ∨ deviceId = "") := by
    simp [ho, hs, hd]
  constructor
  · intro ha
    simp [claimEndpoint, hguard, hfind, ha]
  · intro ha ht
    simp [claimEndpoint, hguard, hfind, ha, ht]

/-- Claim C2 witness: the amended theorem applied to the fixture whose
record is activated (and also terminated). -/
theorem C2_amended_witness :
    (claimEndpoint true sheetBothFlags "100" "S1" "dev" []).1 = .alreadyActivated :=
  (C2_amended_activation_checked_first sheetBothFlags "100" "S1" "dev" [] infoBothFlags
    (by decide) (by decide) (by decide) (by decide)).1 (by decide)

/-- Claim C4: when the located record's balance is below the requested
amount, the consume handler answers InsufficientTokens carrying the
current balance and the requested amount, the sheet is returned exactly
as it was, and the trace of store writes is empty. -/
theorem C4_insufficient_no_mutation (rows : List (List String))
    (serialNumber deviceId : String) (amount : Int) (plan : List Bool) (sinfo : SerialInfo)
    (hs : serialNumber ≠ "") (hd : deviceId ≠ "") (hpos : 0 < amount)
    (hfs : findOrderRowBySerial rows serialNumber = .ok (some sinfo))
    (hlt : sinfo.currentTokens < amount) :
    consumeEndpoint true rows serialNumber deviceId amount plan =
      (.insufficient sinfo.currentTokens amount, rows, []) := by
  have hguard : ¬(serialNumber = "" ∨ deviceId = "") := by simp [hs, hd]
  have hamt : ¬(amount ≤ 0) := by omega
  simp [consumeEndpoint, hguard, hamt, hfs, hlt]

/-- Claim C4 witness: consuming 600000 from a balance of 500000. -/
theorem C4_witness :
    consumeEndpoint true sheetFull "S1" "dev" 600000 [] =
      (.insufficient 500000 600000, sheetFull, []) :=
  C4_insufficient_no_mutation sheetFull "S1" "dev" 600000 [] sinfoFull
    (by decide) (by decide) (by decide) (by decide) (by decide)

/-- Claim C5: validate answers the soft outcome valid = false with zero
tokens when no row carries the serial, and otherwise valid is exactly
(not terminated) and (balance above zero) with tokensRemaining equal to
the record's balance — so a terminated record is invalid regardless of
balance and a zero-balance record is invalid too. -/
theorem C5_validate_semantics (rows : List (List String))
    (serialNumber deviceId : String) (r : Option SerialInfo)
    (hs : serialNumber ≠ "") (hd : deviceId ≠ "")
    (hfs : findOrderRowBySerial rows serialNumber = .ok r) :
    validateEndpoint true rows serialNumber deviceId =
      (match r with
       | none => .notFound false 0
       | some info =>
           .ok (!info.isTerminated && decide ((0 : Int) < info.currentTokens))
             info.currentTokens info.isTerminated info.rowIndex) := by
  have hguard : ¬(serialNumber = "" ∨ deviceId = "") := by simp [hs, hd]
  cases r <;> simp [validateEndpoint, hguard, hfs]

/-- Claim C5 witness: a terminated record with positive balance is
invalid. -/
theorem C5_witness :
    validateEndpoint true sheetBothFlags "S1" "dev" = .ok false 500000 true 2 :=
  C5_validate_semantics sheetBothFlags "S1" "dev" (some sinfoBothFlags)
    (by decide) (by decide) (by decide)

/-- Claim C6, counterexample. With the store client uninitialized the
consume handler does NOT surface a hard failure: it answers a successful
mock response with the fabricated balance max(0, 1000 - 100) = 900, and
the validate handler answers a fabricated mock result as well. -/
theorem C6_counterexample :
    consumeEndpoint false [] "SERIAL1" "dev" 100 [] = (.mockSuccess 900 100, [], []) ∧
    validateEndpoint false [] "SERIAL1" "dev" = .mock true 1000 := by
  refine ⟨by decide, by decide⟩

/-- Claim C6, amended: with the store client unavailable only the claim
handler surfaces a hard failure; the consume handler answers a mock
success with the fabricated balance max(0, 1000 - amount), and the
validate handler answers a mock result that is valid exactly when the
serial is longer than five characters, with 1000 fabricated tokens. No
operation retries. -/
theorem C6_amended_mock_responses (rows : List (List String))
    (orderNumber serialNumber deviceId : String) (amount : Int) (plan : List Bool)
    (ho : orderNumber ≠ "") (hs : serialNumber ≠ "") (hd : deviceId ≠ "")
    (hpos : 0 < amount) :
    claimEndpoint false rows orderNumber serialNumber deviceId plan =
      (.serviceUnavailable, rows, []) ∧
    consumeEndpoint false rows serialNumber deviceId amount plan =
      (.mockSuccess (max 0 (1000 - amount)) amount, rows, []) ∧
    validateEndpoint false rows serialNumber deviceId =
      .mock (decide (5 < serialNumber.length)) (if 5 < serialNumber.length then 1000 else 0) := by
  have hamt : ¬(amount ≤ 0) := by omega
  refine ⟨?_, ?_, ?_⟩
  · simp [claimEndpoint, ho, hs, hd]
  · simp [consumeEndpoint, hs, hd, hamt]
  · simp [validateEndpoint, hs, hd]

/-- Claim C6 witness: the amended behavior at a concrete input. -/
theorem C6_amended_witness :
    claimEndpoint false [] "O1" "SERIAL1" "dev" [] = (.serviceUnavailable, [], []) ∧
    consumeEndpoint false [] "SERIAL1" "dev" 100 [] = (.mockSuccess (max 0 (1000 - 100)) 100, [], []) ∧
    validateEndpoint false [] "SERIAL1" "dev" =
      .mock (decide (5 < "SERIAL1".length)) (if 5 < "SERIAL1".length then 1000 else 0) :=
  C6_amended_mock_responses [] "O1" "SERIAL1" "dev" 100 []
    (by decide) (by decide) (by decide) (by decide)

/-- Claim C3, counterexample. The successful claim response is the same
for two sheets whose prior balances differ (0 versus 777), and it equals
the constant success payload 500000/500000/true: the handler therefore
does not return the previous balance, contrary to the claim. -/
theorem C3_counterexample :
    claimEndpoint true sheetFresh "100" "S1" "dev" [] =
      (.success 500000 500000 true,
       [hdr5, ["S1", "#100", "500000", "TRUE", "FALSE"]],
       [⟨2, 2, "500000"⟩, ⟨2, 3, "TRUE"⟩]) ∧
    (claimEndpoint true sheetFresh "100" "S1" "dev" []).1 =
      (claimEndpoint true sheetFresh777 "100" "S1" "dev" []).1 ∧
    findOrderRowBySerial sheetFresh "S1" = .ok (some sinfoFresh) ∧
    sinfoFresh.currentTokens = 0 ∧
    (findOrderRowBySerial sheetFresh777 "S1").map (Option.map SerialInfo.currentTokens) =
      .ok (some 777) := by
  refine ⟨by decide, by decide, by decide, by decide, by decide⟩

/-- Claim C3, amended: a successful claim overwrites the token cell of
the row carrying the serial with exactly 500000 (not adding), then
writes Activated TRUE, in that order (balance write first), and answers
the new balance 500000; the previous balance is read internally but not
included in the response. -/
theorem C3_amended_claim_success (rows : List (List String))
    (orderNumber serialNumber deviceId : String) (info : OrderInfo) (sinfo : SerialInfo)
    (ho : orderNumber ≠ "") (hs : serialNumber ≠ "") (hd : deviceId ≠ "")
    (hfo : findOrderInSheet rows orderNumber = .ok (some info))
    (hact : info.isActivated = false) (hterm : info.isTerminated = false)
    (hfs : findOrderRowBySerial rows serialNumber = .ok (some sinfo))
    (hac : info.activatedColumnIndex ≠ -1) :
    claimEndpoint true rows orderNumber serialNumber deviceId [] =
      (.success 500000 500000 true,
       writeCell (writeCell rows sinfo.rowIndex sinfo.tokenColumnIndex "500000")
         info.rowIndex info.activatedColumnIndex "TRUE",
       [⟨sinfo.rowIndex, sinfo.tokenColumnIndex, "500000"⟩,
        ⟨info.rowIndex, info.activatedColumnIndex, "TRUE"⟩]) := by
  have hguard : ¬(orderNumber = "" ∨ serialNumber = "" ∨ deviceId = "") := by
    simp [ho, hs, hd]
  have htok : 0 ≤ sinfo.tokenColumnIndex := serialInfo_tokCol_nonneg hfs
  have hac0 : 0 ≤ info.activatedColumnIndex := (orderInfo_ac_cases hfo).resolve_left hac
  have hts : toString (500000 : Int) = "500000" := by decide
  simp [claimEndpoint, hguard, hfo, hact, hterm,
        setUserTokens_found 500000 [] hfs, updateTokensInSheet, hts,
        doWrite_plan_nil sinfo.rowIndex "500000" htok,
        hac, updateActivatedStatus,
        doWrite_plan_nil info.rowIndex "TRUE" hac0, Except.map]

/-- Claim C3 witness: the amended theorem at the zero-balance fixture. -/
theorem C3_amended_witness :
    claimEndpoint true sheetFresh "100" "S1" "dev" [] =
      (.success 500000 500000 true,
       writeCell (writeCell sheetFresh 2 2 "500000") 2 3 "TRUE",
       [⟨2, 2, "500000"⟩, ⟨2, 3, "TRUE"⟩]) :=
  C3_amended_claim_success sheetFresh "100" "S1" "dev" infoFresh sinfoFresh
    (by decide) (by decide) (by decide) (by decide) (by decide) (by decide) (by decide)
    (by decide)

/-- Claim C7, counterexample. When the second of the two claim writes
fails after the first succeeded (plan [true, false]), the response is
the same generic failure produced when the FIRST write already failed
(plan [false]) — the two states differ, the responses do not — so no
distinguishable PartialUpdate error identifying the successful sub-write
is reported. -/
theorem C7_counterexample :
    (claimEndpoint true sheetFresh "100" "S1" "dev" [true, false]).1 =
      .googleError "Write failed" ∧
    (claimEndpoint true sheetFresh "100" "S1" "dev" [false]).1 =
      (claimEndpoint true sheetFresh "100" "S1" "dev" [true, false]).1 ∧
    (claimEndpoint true sheetFresh "100" "S1" "dev" [true, false]).2.1 ≠
      (claimEndpoint true sheetFresh "100" "S1" "dev" [false]).2.1 := by
  refine ⟨by decide, by decide, by decide⟩

/-- Claim C7, amended: when the second write of the claim flow fails
after the first succeeded, the caller receives the generic failure
carrying only the store error message, with the balance write already
persisted; the response is identical to the one produced when the first
write fails, so it does not identify which sub-write succeeded. -/
theorem C7_amended_generic_failure (rows : List (List String))
    (orderNumber serialNumber deviceId : String) (info : OrderInfo) (sinfo : SerialInfo)
    (ho : orderNumber ≠ "") (hs : serialNumber ≠ "") (hd : deviceId ≠ "")
    (hfo : findOrderInSheet rows orderNumber = .ok (some info))
    (hact : info.isActivated = false) (hterm : info.isTerminated = false)
    (hfs : findOrderRowBySerial rows serialNumber = .ok (some sinfo))
    (hac : info.activatedColumnIndex ≠ -1) :
    claimEndpoint true rows orderNumber serialNumber deviceId [true, false] =
      (.googleError "Write failed",
       writeCell rows sinfo.rowIndex sinfo.tokenColumnIndex "500000",
       [⟨sinfo.rowIndex, sinfo.tokenColumnIndex, "500000"⟩]) ∧
    claimEndpoint true rows orderNumber serialNumber deviceId [false] =
      (.googleError "Write failed", rows, []) := by
  have hguard : ¬(orderNumber = "" ∨ serialNumber = "" ∨ deviceId = "") := by
    simp [ho, hs, hd]
  have htok : 0 ≤ sinfo.tokenColumnIndex := serialInfo_tokCol_nonneg hfs
  have hac0 : 0 ≤ info.activatedColumnIndex := (orderInfo_ac_cases hfo).resolve_left hac
  have hts : toString (500000 : Int) = "500000" := by decide
  constructor
  · simp [claimEndpoint, hguard, hfo, hact, hterm,
          setUserTokens_found 500000 [true, false] hfs, updateTokensInSheet, hts,
          doWrite_plan_true sinfo.rowIndex "500000" [false] htok,
          hac, updateActivatedStatus,
          doWrite_plan_false info.rowIndex "TRUE" [] hac0, Except.map]
  · simp [claimEndpoint, hguard, hfo, hact, hterm,
          setUserTokens_found 500000 [false] hfs, updateTokensInSheet, hts,
          doWrite_plan_false sinfo.rowIndex "500000" [] htok, Except.map]

/-- Claim C7 witness: the amended theorem at the zero-balance fixture. -/
theorem C7_amended_witness :
    claimEndpoint true sheetFresh "100" "S1" "dev" [true, false] =
      (.googleError "Write failed",
       writeCell sheetFresh 2 2 "500000",
       [⟨2, 2, "500000"⟩]) ∧
    claimEndpoint true sheetFresh "100" "S1" "dev" [false] =
      (.googleError "Write failed", sheetFresh, []) :=
  C7_amended_generic_failure sheetFresh "100" "S1" "dev" infoFresh sinfoFresh
    (by decide) (by decide) (by decide) (by decide) (by decide) (by decide) (by decide)
    (by decide)

/-- Claim C10: because consume only reaches its write step when the
balance covers the amount, the written balance is non-negative, the
below-zero termination branch never runs, the trace holds exactly the
one balance write and no Terminated write, and wasTerminated is
reported false. -/
theorem C10_consume_never_writes_terminated (rows : List (List String))
    (serialNumber deviceId : String) (amount : Int) (sinfo : SerialInfo)
    (hs : serialNumber ≠ "") (hd : deviceId ≠ "") (hpos : 0 < amount)
    (hfs : findOrderRowBySerial rows serialNumber = .ok (some sinfo))
    (hle : amount ≤ sinfo.currentTokens) :
    0 ≤ sinfo.currentTokens - amount ∧
    consumeEndpoint true rows serialNumber deviceId amount [] =
      (.success (sinfo.currentTokens - amount) amount sinfo.currentTokens false,
       writeCell rows sinfo.rowIndex sinfo.tokenColumnIndex
         (toString (sinfo.currentTokens - amount)),
       [⟨sinfo.rowIndex, sinfo.tokenColumnIndex, toString (sinfo.currentTokens - amount)⟩]) := by
  have hguard : ¬(serialNumber = "" ∨ deviceId = "") := by simp [hs, hd]
  have hamt : ¬(amount ≤ 0) := by omega
  have htok : 0 ≤ sinfo.tokenColumnIndex := serialInfo_tokCol_nonneg hfs
  have hnlt : ¬(sinfo.currentTokens < amount) := by omega
  have hnneg : ¬(sinfo.currentTokens - amount < 0) := by omega
  refine ⟨by omega, ?_⟩
  simp [consumeEndpoint, hguard, hamt, hfs, hnlt, updateTokensInSheet,
        doWrite_plan_nil sinfo.rowIndex (toString (sinfo.currentTokens - amount)) htok,
        hnneg]

/-- Claim C10 witness: consuming 1 token from a balance of 500000. -/
theorem C10_witness :
    0 ≤ (500000 : Int) - 1 ∧
    consumeEndpoint true sheetFull "S1" "dev" 1 [] =
      (.success (500000 - 1) 1 500000 false,
       writeCell sheetFull 2 2 (toString ((500000 : Int) - 1)),
       [⟨2, 2, toString ((500000 : Int) - 1)⟩]) :=
  C10_consume_never_writes_terminated sheetFull "S1" "dev" 1 sinfoFull
    (by decide) (by decide) (by decide) (by decide) (by decide)

/-- Claim C8, counterexample. The code's order normalization removes the
FIRST hash wherever it occurs, not only a leading one: the query with a
leading hash locates the row whose cell is hash-in-the-middle, although
under the claim's leading-only stripping the two strings differ and no
row should match. -/
theorem C8_counterexample :
    findOrderInSheet sheetHashMid "#100" = .ok (some infoHashMid) ∧
    stripLeadingHash "1#00" ≠ stripLeadingHash "#100" := by
  refine ⟨by decide, by decide⟩

/-- Claim C8, amended: order lookup returns the first row, in row order,
whose order cell equals the query after removing the FIRST hash
occurrence (anywhere in the string) from both sides, and serial lookup
returns the first row whose serial cell is exactly string-equal to the
query, with the earliest row authoritative in both cases (firstMatch?
yields the first satisfying row in row order). -/
theorem C8_amended_first_match_lookup (headers : List String)
    (dataRows : List (List String)) (q s : String) (oc tc ac tmc sc : Int)
    (hoc : oc = jsFindIndex (fun c => headerHas c "clientorder") headers)
    (htc : tc = jsFindIndex (fun c => headerHas c "token") headers)
    (hac : ac = jsFindIndex (fun c => headerHas c "activated") headers)
    (htmc : tmc = jsFindIndex (fun c => headerHas c "terminated") headers)
    (hsc : sc = jsFindIndex (fun c => headerHas c "serial") headers) :
    (oc ≠ -1 →
      findOrderInSheet (headers :: dataRows) q =
        .ok ((firstMatch? (orderRowMatches oc q) dataRows).map
          (fun x => mkOrderInfo oc tc ac tmc x.2 (1 + x.1)))) ∧
    (sc ≠ -1 → tc ≠ -1 →
      findOrderRowBySerial (headers :: dataRows) s =
        .ok ((firstMatch? (serialRowMatches sc s) dataRows).map
          (fun x => mkSerialInfo sc tc ac tmc x.2 (1 + x.1)))) := by
  subst hoc htc hac htmc hsc
  exact ⟨fun h => findOrderInSheet_eq headers dataRows q h,
         fun h1 h2 => findOrderRowBySerial_eq headers dataRows s h1 h2⟩

/-- Claim C8 witness: the amended lookup equations at concrete sheets. -/
theorem C8_amended_witness :
    findOrderInSheet sheetHashMid "#100" =
      .ok ((firstMatch? (orderRowMatches 0 "#100") [["1#00", "SX"]]).map
        (fun x => mkOrderInfo 0 (-1) (-1) (-1) x.2 (1 + x.1))) ∧
    findOrderRowBySerial sheetFull "S1" =
      .ok ((firstMatch? (serialRowMatches 0 "S1") [["S1", "#100", "500000", "TRUE", "FALSE"]]).map
        (fun x => mkSerialInfo 0 2 3 4 x.2 (1 + x.1))) :=
  ⟨(C8_amended_first_match_lookup ["ClientOrder", "Serial"] [["1#00", "SX"]] "#100" "S1"
      0 (-1) (-1) (-1) 1 (by decide) (by decide) (by decide) (by decide) (by decide)).1
      (by decide),
   (C8_amended_first_match_lookup hdr5 [["S1", "#100", "500000", "TRUE", "FALSE"]] "#100" "S1"
      1 2 3 4 0 (by decide) (by decide) (by decide) (by decide) (by decide)).2
      (by decide) (by decide)⟩

/-- Claim C9, counterexample. For serial operations the token column is
NOT optional: a sheet with a serial column but no token column makes
findOrderRowBySerial abort with the hard schema error, although the
claim says absence of the token column never aborts and only triggers
the fallback value. -/
theorem C9_counterexample :
    jsFindIndex (fun c => headerHas c "serial") ["Serial"] = 0 ∧
    jsFindIndex (fun c => headerHas c "token") ["Serial"] = -1 ∧
    findOrderRowBySerial [["Serial"], ["S1"]] "S1" =
      .error "Could not find Serial or Token columns in spreadsheet" := by
  refine ⟨by decide, by decide, by decide⟩

/-- Claim C9, amended: column resolution returns the index of the first
header whose lower-cased text contains the substring (empty headers are
skipped by the predicate) and -1 otherwise; a missing order column
aborts order lookup as a hard schema error; in ORDER lookup the missing
token column falls back to the fixed value 1000 and missing flag
columns default to false; in SERIAL lookup a missing serial column OR a
missing token column aborts as a hard schema error (the token column is
mandatory there). -/
theorem C9_amended_column_resolution :
    (∀ (p : String → Bool) (l : List String),
      jsFindIndex p l = (firstIdx? p l).elim (-1) (fun j => (j : Int))) ∧
    (∀ (headers : List String) (dataRows : List (List String)) (q : String),
      jsFindIndex (fun c => headerHas c "clientorder") headers = -1 →
      findOrderInSheet (headers :: dataRows) q =
        .error "Could not find Order column in spreadsheet") ∧
    (∀ (headers : List String) (dataRows : List (List String)) (q : String)
        (info : OrderInfo),
      findOrderInSheet (headers :: dataRows) q = .ok (some info) →
      (jsFindIndex (fun c => headerHas c "token") headers = -1 → info.tokens = 1000) ∧
      (jsFindIndex (fun c => headerHas c "activated") headers = -1 →
        info.isActivated = false) ∧
      (jsFindIndex (fun c => headerHas c "terminated") headers = -1 →
        info.isTerminated = false)) ∧
    (∀ (headers : List String) (dataRows : List (List String)) (s : String),
      (jsFindIndex (fun c => headerHas c "serial") headers = -1 ∨
       jsFindIndex (fun c => headerHas c "token") headers = -1) →
      findOrderRowBySerial (headers :: dataRows) s =
        .error "Could not find Serial or Token columns in spreadsheet") := by
  refine ⟨jsFindIndex_eq_firstIdx, ?_, ?_, ?_⟩
  · intro headers dataRows q h
    simp [findOrderInSheet, h]
  · intro headers dataRows q info hfind
    obtain ⟨headers2, dataRows2, x, heq, -, -, hmk⟩ := findOrderInSheet_some_shape hfind
    obtain ⟨hh, -⟩ := List.cons.injEq .. ▸ heq
    subst hh
    refine ⟨fun htc => ?_, fun hac => ?_, fun htmc => ?_⟩
    · rw [hmk]; simp [mkOrderInfo, htc]
    · rw [hmk]; simp [mkOrderInfo, hac]
    · rw [hmk]; simp [mkOrderInfo, htmc]
  · intro headers dataRows s h
    unfold findOrderRowBySerial
    simp only [if_pos h]

/-- Claim C9 witness: the amended behavior at concrete headers — the
characterization of findIndex, the hard error for a missing order
column, the 1000-token fallback of order lookup, and the hard error of
serial lookup on a missing token column. -/
theorem C9_amended_witness :
    jsFindIndex (fun c => headerHas c "token") ["x", "Token"] =
      (firstIdx? (fun c => headerHas c "token") ["x", "Token"]).elim (-1) (fun j => (j : Int)) ∧
    findOrderInSheet [["Foo"], ["r"]] "1" =
      .error "Could not find Order column in spreadsheet" ∧
    (mkOrderInfo 0 (-1) (-1) (-1) ["7"] 1).tokens = 1000 ∧
    findOrderRowBySerial [["Serial", "Foo"], ["S1", "x"]] "S1" =
      .error "Could not find Serial or Token columns in spreadsheet" :=
  ⟨C9_amended_column_resolution.1 (fun c => headerHas c "token") ["x", "Token"],
   C9_amended_column_resolution.2.1 ["Foo"] [["r"]] "1" (by decide),
   (C9_amended_column_resolution.2.2.1 ["ClientOrder"] [["7"]] "7"
      (mkOrderInfo 0 (-1) (-1) (-1) ["7"] 1) (by decide)).1 (by decide),
   C9_amended_column_resolution.2.2.2 ["Serial", "Foo"] [["S1", "x"]] "S1"
      (Or.inr (by decide))⟩

end SrvDeploy
